import Mathlib

/-!
Verification of the routing core of `hilla-router` (`src/Router.ts`).

The development shallowly embeds the two source files' routing logic:

* the `URLPattern` platform objects that `Router` compiles for each route
  node (`new URLPattern(path, base)` and `pattern.exec(path)`), modelled on
  the WHATWG URLPattern specification for the grammar subset the router
  uses: literal text and `:name` groups in the pathname component, with the
  unspecified `search`/`hash` components defaulting to the full wildcard
  pattern, and
* the `Router` class itself: `stripJoiners`, the constructor's `#patternize`
  pass, the recursive `#resolve` loop, and the public `resolve` wrapper with
  its `RouterError`/`errorHandler` catch.

Asynchrony is modelled synchronously: a settled promise is its settled
value, a rejected promise (or a synchronous `throw`) is an `Except.error`.
The distinction the code *does* observe between a promise object and an
immediate value (the `??` operator in `route.action?.(...) ?? next()` tests
the immediate result for nullishness, not the settled value) is kept in
`ActionOut`.
-/

namespace HillaRouter

/-! ## JavaScript-level values -/

/-- A thrown JavaScript value, as far as `Router.resolve` can distinguish
them: an instance of the `RouterError` class (carrying `status` and
`message`), or any other thrown value (`e instanceof RouterError` is
false), summarised by a string. -/
inductive JsError where
  | routerError (status : Nat) (message : String)
  | other (message : String)
deriving DecidableEq, Repr

/-- The `RouterError` object as the configured `errorHandler` receives it:
its `status` and `message` properties. -/
structure RouterError where
  status : Nat
  message : String
deriving DecidableEq, Repr

/-- A parsed absolute URL, restricted to the components URLPattern matching
consults for this router: scheme, host, port, pathname, search and hash
(the latter two stored without their `?`/`#` sigils, empty when absent).
Credentials are not modelled (route bases in this repository have none). -/
structure URLRec where
  scheme : String
  host : String
  port : String
  pathname : String
  search : String
  hash : String
deriving DecidableEq, Repr

/-- `String(path)` / `URL.href` for the URLs modelled by `URLRec`: the
serialization used in the 404 message `Page ${String(path)} is not found`. -/
def serializeURL (u : URLRec) : String :=
  u.scheme ++ ("://") ++ u.host ++ (if u.port = ("") then ("") else (":") ++ u.port) ++
    u.pathname ++ (if u.search = ("") then ("") else ("?") ++ u.search) ++
    (if u.hash = ("") then ("") else ("#") ++ u.hash)

/-! ## URL parsing for pattern bases

`#patternize` passes `parents.join('/')` — a plain string — as the
`baseURL` argument of the `URLPattern` constructor, which parses it as an
absolute URL.  We model the parse for `scheme://host[:port][/path]` strings
(no credentials, query or fragment: the joined bases this router builds
never contain them for the route trees under study). -/

/-- Split a character list at the first `://`, returning the scheme
characters and the remainder, or `none` when no `://` occurs. -/
def splitScheme : List Char → Option (List Char × List Char)
  | [] => none
  | ':' :: '/' :: '/' :: rest => some ([], rest)
  | c :: rest => (splitScheme rest).map fun pr => (c :: pr.1, pr.2)

/-- Parse an absolute `scheme://host[:port][/path]` URL string.  A URL with
no path component gets the canonical pathname `/`, as the WHATWG URL parser
produces for special schemes. -/
def parseBaseURL (s : String) : Option URLRec :=
  match splitScheme s.toList with
  | none => none
  | some (schemeCs, restCs) =>
    if schemeCs.isEmpty then none
    else
      let hostPort := restCs.takeWhile (· ≠ '/')
      let pathCs := restCs.drop hostPort.length
      let host := hostPort.takeWhile (· ≠ ':')
      let port := hostPort.drop (host.length + 1)
      if host.isEmpty then none
      else some { scheme := String.mk schemeCs, host := String.mk host,
                  port := String.mk port,
                  pathname := if pathCs.isEmpty then ("/") else String.mk pathCs,
                  search := (""), hash := ("") }

/-! ## URLPattern pathname patterns

The router's route paths use the URLPattern pathname grammar subset of
literal characters and `:name` named groups (a named group compiles to the
regular expression `[^/]+?`: one or more non-separator characters, lazily).
Other URLPattern constructs (`*`, modifiers, regexp groups, `{}` grouping,
escapes) do not occur in this repository's route trees and are outside the
modelled subset. -/

/-- One token of a compiled pathname pattern: a literal character, or a
named group matching `[^/]+?`. -/
inductive PatPart where
  | lit (c : Char)
  | param (name : String)
deriving DecidableEq, Repr

/-- A character that may appear in a `:name` group name. -/
def isNameChar (c : Char) : Bool :=
  c.isAlphanum || c = '_'

/-- Tokenize a pathname pattern.  The fuel argument is consumed once per
step while each step consumes at least one input character, so
`parsePatternChars` below supplies `cs.length` and never exhausts it. -/
def parsePatternF : Nat → List Char → List PatPart
  | 0, _ => []
  | _ + 1, [] => []
  | f + 1, ':' :: rest =>
    let nm := rest.takeWhile isNameChar
    .param (String.mk nm) :: parsePatternF f (rest.drop nm.length)
  | f + 1, c :: rest => .lit c :: parsePatternF f rest

/-- Tokenize a pathname pattern string given as characters. -/
def parsePatternChars (cs : List Char) : List PatPart :=
  parsePatternF cs.length cs

/-- Named-group captures of a component match, in group order:
the `groups` object of a `URLPatternComponentResult` (values may be
`undefined` for wildcard matches of empty input, hence `Option`). -/
abbrev RouteParams := List (String × Option String)

mutual

/-- Match a tokenized pathname pattern against input characters, anchored at
both ends, returning the named-group captures.  Fuel is consumed once per
step; every fuel-consuming call strictly decreases `2·|parts| + |input|`,
so the wrapper `matchParts` supplies enough for the match to complete. -/
def matchPartsF : Nat → List PatPart → List Char → Option RouteParams
  | 0, _, _ => none
  | _ + 1, [], [] => some []
  | _ + 1, [], _ :: _ => none
  | _ + 1, .lit _ :: _, [] => none
  | f + 1, .lit ch :: rest, c :: cs => if ch = c then matchPartsF f rest cs else none
  | f + 1, .param n :: rest, cs => matchParamF f n rest [] cs

/-- Lazy matching for a `:name` group (`[^/]+?`): having consumed the
reversed characters `accRev`, first try to finish the rest of the pattern
here (shortest match), and only on failure extend the group by one more
non-`/` character. -/
def matchParamF : Nat → String → List PatPart → List Char → List Char → Option RouteParams
  | 0, _, _, _, _ => none
  | f + 1, n, rest, accRev, cs =>
    match (if accRev.isEmpty then none
           else (matchPartsF f rest cs).map fun g =>
             (n, some (String.mk accRev.reverse)) :: g) with
    | some g => some g
    | none =>
      match cs with
      | c :: cs' => if c = '/' then none else matchParamF f n rest (c :: accRev) cs'
      | [] => none

end

/-- Match a tokenized pathname pattern, with sufficient fuel. -/
def matchParts (parts : List PatPart) (cs : List Char) : Option RouteParams :=
  matchPartsF (2 * parts.length + cs.length + 8) parts cs

/-! ## Compiled URLPattern objects -/

/-- A `URLPattern` as `#patternize` builds one: the protocol, hostname and
port components are inherited from the base URL as (escaped, hence literal)
strings; the pathname component is the compiled pattern; the `search` and
`hash` components were not specified by the constructor string and default
to the full wildcard `*`, which matches any input and captures it as group
`"0"`. -/
structure URLPattern where
  protocol : String
  hostname : String
  port : String
  pathname : List PatPart
deriving DecidableEq, Repr

/-- The result of matching one URLPattern component: the component's input
string and its captured groups. -/
structure ComponentResult where
  input : String
  groups : RouteParams
deriving DecidableEq, Repr

/-- The `URLPatternResult` fields the router consults: `pathname`,
`search` and `hash` component results. -/
structure PatternResult where
  pathname : ComponentResult
  search : ComponentResult
  hash : ComponentResult
deriving DecidableEq, Repr

/-- Is the pathname pattern absolute (starts with `/`)?  (The URLPattern
specification also treats `\/` and `{/` starts as absolute; those do not
occur in the modelled grammar subset.) -/
def isAbsolutePathname (p : String) : Bool :=
  match p.toList with
  | '/' :: _ => true
  | _ => false

/-- Everything up to and including the last `/` of a pathname — the
"directory" the URLPattern constructor prefixes to a relative pathname
pattern; empty when the string has no `/`. -/
def dirOf (p : String) : String :=
  String.mk ((p.toList.reverse.dropWhile (· ≠ '/')).reverse)

/-- `new URLPattern(pattern, base)` for this router's constructor calls.
Per the URLPattern specification's `process a URLPatternInit` steps, a
relative pathname pattern is prefixed with the base URL's pathname up to
and including its last `/` (the directory), and the protocol, hostname and
port are inherited from the base as literals; `search` and `hash` default
to the wildcard.  Returns `none` when the base string does not parse as an
absolute URL (the constructor would throw, at `Router` construction
time). -/
def compilePattern (pattern : String) (base : String) : Option URLPattern :=
  (parseBaseURL base).map fun b =>
    let pathPat :=
      if isAbsolutePathname pattern then pattern
      else
        let d := dirOf b.pathname
        if d = ("") then pattern else d ++ pattern
    { protocol := b.scheme, hostname := b.host, port := b.port,
      pathname := parsePatternChars pathPat.toList }

/-- `pattern.exec(url)`: all components must match.  Protocol, hostname and
port are literal comparisons; the pathname runs the compiled token list;
`search` and `hash` are the wildcard `*`, matching any input and capturing
it as group `"0"`. -/
def URLPattern.exec (p : URLPattern) (u : URLRec) : Option PatternResult :=
  if p.protocol = u.scheme ∧ p.hostname = u.host ∧ p.port = u.port then
    match matchParts p.pathname u.pathname.toList with
    | some g =>
      some { pathname := { input := u.pathname, groups := g },
             search := { input := u.search, groups := [(("0"), some u.search)] },
             hash := { input := u.hash, groups := [(("0"), some u.hash)] } }
    | none => none
  else none

/-! ## Route trees (`Route` in `Router.ts`)

A route node: a `path` pattern segment, optionally a list of children
(`children?: ReadonlyArray<Route> | null` — `none` models both an absent
and a `null` property, which are equally falsy for `route.children ? … : …`
while an empty array is truthy), and optionally an `action`.

The `action` receives a `RouteContext`.  The source context carries the
matched `route` and `parent` node objects and a back-reference to the
`router`; a positive occurrence of `Route` inside its own constructor types
is impossible in the embedding, so nodes are identified by their index path
in the tree (the spec's own design note: "assign each node an integer id at
tree-construction time").  The `router` back-reference is dropped.

`RouteList` is the sibling array, as a mutual inductive so that the
resolver is plain structural recursion. -/

/-- What a route action (or the error handler) produces, before awaiting:
a plain value (`sync`, with `none` for `null`/`undefined`), a promise that
settles or rejects (`promise`), or a synchronous `throw`.  The resolver's
`route.action?.(…) ?? next()` tests THIS immediate value for nullishness:
only `sync none` is nullish; a promise object never is. -/
inductive ActionOut (R : Type) where
  | sync (v : Option R)
  | promise (v : Except JsError (Option R))
  | throws (e : JsError)

/-- Awaiting an `ActionOut`: the settled value or the propagated failure. -/
def settleOut : ActionOut R → Except JsError (Option R)
  | .sync v => .ok v
  | .promise v => v
  | .throws e => .error e

/-- The argument object of a route action (`RouteContext` in `types.ts` /
`Router.ts`), with `route` and `parent` as tree index paths. -/
structure RouteContext (R C : Type) where
  context : Option C
  next : Unit → Except JsError (Option R)
  params : RouteParams
  parent : Option (List Nat)
  path : URLRec
  route : List Nat

mutual

/-- A route tree node. -/
inductive Route (R C : Type) where
  | mk (path : String) (children : Option (RouteList R C))
       (action : Option (RouteContext R C → ActionOut R))

/-- A sibling array of route nodes, in declaration order. -/
inductive RouteList (R C : Type) where
  | nil
  | cons (head : Route R C) (tail : RouteList R C)

end

/-- The `path` property of a route node. -/
def Route.path : Route R C → String
  | .mk p _ _ => p

/-- The `children` property of a route node. -/
def Route.children : Route R C → Option (RouteList R C)
  | .mk _ cs _ => cs

/-- The `action` property of a route node. -/
def Route.action : Route R C → Option (RouteContext R C → ActionOut R)
  | .mk _ _ a => a

/-- The `length` of a sibling array. -/
def RouteList.length : RouteList R C → Nat
  | .nil => 0
  | .cons _ rest => rest.length + 1

/-- Concatenation of sibling arrays (used to speak about the siblings
before and after a given node). -/
def RouteList.append : RouteList R C → RouteList R C → RouteList R C
  | .nil, l => l
  | .cons r rest, l => .cons r (rest.append l)

/-! ## stripJoiners and pattern bases -/

/-- `stripJoiners` (`Router.ts`): remove the leading and trailing runs of
`/` from a path segment, via the regular expression `/^\x2f*(.*?)\x2f*$/u`.
(For inputs containing a line terminator that regular expression fails to
match and the function returns `undefined`; such paths do not occur in the
route trees under study and are outside the model.) -/
def stripJoiners (path : String) : String :=
  String.mk (((path.toList.dropWhile (· = '/')).reverse.dropWhile (· = '/')).reverse)

/-- `parents.join('/')`. -/
def joinSlash : List String → String
  | [] => ("")
  | [s] => s
  | s :: rest => s ++ ("/") ++ joinSlash rest

/-! ## The resolver (`Router.#resolve`)

`#resolve(path, routes, parent, context)` walks the sibling list in order;
for each sibling it fetches the precompiled pattern and runs `exec`; on the
first match it builds the `next` continuation over the node's children and
evaluates `route.action?.(context…) ?? next()`; when no sibling matches it
throws `new RouterError(404, `Page ${String(path)} is not found`)`.

The embedding carries, in place of the `WeakMap` of compiled patterns, the
chain `parents` of stripped ancestor segments (headed by the stripped base
URL) from which `#patternize` compiled each node's pattern — the value
computed per node here is exactly the value `#patternize` stored for it
(same `compilePattern` call on the same arguments; see `patternizeNode`
below and claim C10) — plus the index-path bookkeeping `pp`/`i` that stands
for node identity.  The non-null assertion `this.#patterns.get(route)!` is
modelled by an explicit `Option` match whose `none` branch raises the
`TypeError` the JavaScript code would raise on a missing pattern; claim C10
shows the table covers every node the loop can reach, and for a router
whose construction succeeded (`allCompile`) that branch is unreachable. -/

/-- The body run for the first matching sibling:
`route.action?.({context, next, params, parent, path, route, router}) ?? next()`
with `params` taken from `result.search.groups` as in the source.  If the
node has an action, its immediate result decides: a non-nullish value or a
promise is returned (the promise awaited, rejections propagating); a
synchronous nullish result falls back to `next()` by `??`; with no action,
`next()` runs directly. -/
def matchedStep (path : URLRec) (params : RouteParams) (myPos : List Nat)
    (parent : Option (List Nat)) (context : Option C)
    (action : Option (RouteContext R C → ActionOut R))
    (next : Unit → Except JsError (Option R)) : Except JsError (Option R) :=
  match action with
  | none => next ()
  | some a =>
    match a { context := context, next := next, params := params, parent := parent,
              path := path, route := myPos } with
    | .sync none => next ()
    | .sync (some v) => .ok (some v)
    | .promise v => v
    | .throws e => .error e

mutual

/-- The resolver loop over a sibling list; see the section comment. -/
def resolveRoutes : URLRec → List String → List Nat → Nat → RouteList R C →
    Option (List Nat) → Option C → Except JsError (Option R)
  | path, _, _, _, .nil, _, _ =>
    .error (.routerError 404 (("Page ") ++ serializeURL path ++ (" is not found")))
  | path, parents, pp, i, .cons r rest, parent, context =>
    match compilePattern (stripJoiners r.path) (joinSlash parents) with
    | none => .error (.other ("TypeError"))
    | some pat =>
      match pat.exec path with
      | none => resolveRoutes path parents pp (i + 1) rest parent context
      | some res => resolveMatched path parents pp i r parent context res

/-- The matched-sibling step: build `next` over the node's children
(`route.children ? this.#resolve(path, route.children, route, context) :
undefined`, split here into the two shapes of `children` so that each
equation is a plain pattern) and run `matchedStep`.  Everything here
depends only on the matched node — the remaining siblings of the scanned
list never occur. -/
def resolveMatched : URLRec → List String → List Nat → Nat → Route R C →
    Option (List Nat) → Option C → PatternResult → Except JsError (Option R)
  | path, _, pp, i, .mk _ none a, parent, context, res =>
    matchedStep path res.search.groups (pp ++ [i]) parent context a
      (fun _ => .ok none)
  | path, parents, pp, i, .mk p (some csl) a, parent, context, res =>
    matchedStep path res.search.groups (pp ++ [i]) parent context a
      (fun _ =>
        resolveRoutes path (parents ++ [stripJoiners p]) (pp ++ [i]) 0 csl
          (some (pp ++ [i])) context)

end

/-- The `next` continuation built for a matched node at index path `myPos`:
with children, re-enter the resolver on them (full original path, the
matched node as parent); with `children` absent or `null`, yield
`undefined`. -/
def childNext (path : URLRec) (parents : List String) (myPos : List Nat) (r : Route R C)
    (context : Option C) : Unit → Except JsError (Option R) :=
  fun _ =>
    match r.children with
    | some csl =>
      resolveRoutes path (parents ++ [stripJoiners r.path]) myPos 0 csl (some myPos) context
    | none => .ok none

/-! ## Construction (`Router.#patternize`) -/

mutual

/-- The compiled-pattern table `#patternize` builds for a sibling list:
one entry per visited node, keyed by the node's tree index path (standing
for the `WeakMap`'s keying by node identity), holding
`new URLPattern(stripJoiners(route.path), parents.join('/'))` — `none`
marking a constructor call that would throw. -/
def patternizeList : RouteList R C → List String → List Nat → Nat →
    List (List Nat × Option URLPattern)
  | .nil, _, _, _ => []
  | .cons r rest, parents, pp, i =>
    patternizeNode r parents pp i ++ patternizeList rest parents pp (i + 1)

/-- The table entries contributed by one node: its own pattern, then —
only under `route.children?.length` (children present AND non-empty) — the
entries of its children. -/
def patternizeNode : Route R C → List String → List Nat → Nat →
    List (List Nat × Option URLPattern)
  | .mk p none _, parents, pp, i =>
    [(pp ++ [i], compilePattern (stripJoiners p) (joinSlash parents))]
  | .mk p (some csl) _, parents, pp, i =>
    (pp ++ [i], compilePattern (stripJoiners p) (joinSlash parents)) ::
      (if csl.length = 0 then []
       else patternizeList csl (parents ++ [stripJoiners p]) (pp ++ [i]) 0)

end

/-- `Router.#patternize`, keyed from the root. -/
def patternize (routes : RouteList R C) (parents : List String) :
    List (List Nat × Option URLPattern) :=
  patternizeList routes parents [] 0

/-- Construction succeeded: every `new URLPattern(…)` call of `#patternize`
returned a pattern (none of them threw). -/
def allCompile (routes : RouteList R C) (parents : List String) : Bool :=
  (patternize routes parents).all fun e => e.2.isSome

/-- Does the node's own compiled pattern (if it compiled) match the
candidate URL? -/
def patMatchesB (p : String) (parents : List String) (u : URLRec) : Bool :=
  match compilePattern (stripJoiners p) (joinSlash parents) with
  | some pat => (pat.exec u).isSome
  | none => false

mutual

/-- Does any node of the sibling list, at any depth, match the candidate
URL?  (A node's compiled pattern is always tested against the full original
path, since each pattern already encodes the ancestor chain.) -/
def anyMatchList : RouteList R C → List String → URLRec → Bool
  | .nil, _, _ => false
  | .cons r rest, parents, u => anyMatchNode r parents u || anyMatchList rest parents u

/-- Does this node or any of its descendants match the candidate URL? -/
def anyMatchNode : Route R C → List String → URLRec → Bool
  | .mk p none _, parents, u => patMatchesB p parents u
  | .mk p (some csl) _, parents, u =>
    patMatchesB p parents u || anyMatchList csl (parents ++ [stripJoiners p]) u

end

/-! ## The router object and the public `resolve` -/

/-- A constructed `Router`: the normalized route list (the constructor
wraps a single route into a one-element array), the base URL string
(`String(options?.baseURL ?? location.origin)` — the ambient origin
substituted when options are absent), and the optional `errorHandler`,
which receives `(path, error, context)`. -/
structure Router (R C : Type) where
  routes : RouteList R C
  baseURL : String
  errorHandler : Option (URLRec → RouterError → Option C → ActionOut R)

/-- The public `Router.resolve(path, context)`: run `#resolve` on the root
sibling list (parent `null`); if it throws `e` with
`e instanceof RouterError` and an `errorHandler` is configured, return the
handler's (awaited) result; any other failure is re-thrown. -/
def Router.resolve (ρ : Router R C) (path : URLRec) (context : Option C) :
    Except JsError (Option R) :=
  match resolveRoutes path [stripJoiners ρ.baseURL] [] 0 ρ.routes none context with
  | .error (.routerError s m) =>
    match ρ.errorHandler with
    | some h => settleOut (h path { status := s, message := m } context)
    | none => .error (.routerError s m)
  | r => r

/-- Index paths of the nodes the resolution loop can encounter: every node
of the root sibling list and, recursively, every node of the children of
any such node. -/
inductive Reachable : RouteList R C → List Nat → Prop where
  | head (r : Route R C) (rest : RouteList R C) : Reachable (.cons r rest) [0]
  | tail (r : Route R C) (rest : RouteList R C) (j : Nat) (q : List Nat) :
      Reachable rest (j :: q) → Reachable (.cons r rest) ((j + 1) :: q)
  | down (p : String) (csl : RouteList R C)
      (a : Option (RouteContext R C → ActionOut R)) (rest : RouteList R C) (q : List Nat) :
      Reachable csl q → Reachable (.cons (.mk p (some csl) a) rest) (0 :: q)


/-- The siblings of a scanned list prefix that the loop steps over: each
one has a compiled pattern and that pattern does not match the candidate
path. -/
def NoneMatch (path : URLRec) (parents : List String) : RouteList R C → Prop
  | .nil => True
  | .cons r rest =>
    (∃ pat, compilePattern (stripJoiners r.path) (joinSlash parents) = some pat ∧
      pat.exec path = none) ∧ NoneMatch path parents rest

/-! ## Concrete fixtures for the claim theorems and witnesses -/

/-- The URL `https://example.com` + the given pathname, with empty search
and hash. -/
def exURL (p : String) : URLRec :=
  { scheme := ("https"), host := ("example.com"), port := (""), pathname := p,
    search := (""), hash := ("") }

/-- Fixture for the C1 counterexample: parent `/base` whose action
synchronously returns `undefined` without ever invoking `next()`, with a
child whose stripped pattern also matches `/base` and whose action returns
`2`. -/
def c1Router : Router Nat Unit :=
  { routes := .cons (.mk ("/base")
      (some (.cons (.mk ("base") none (some fun _ => .sync (some 2))) .nil))
      (some fun _ => .sync none)) .nil,
    baseURL := ("https://example.com"), errorHandler := none }

/-- Fixture for the C1 witness: a single route with a synchronous
non-nullish action. -/
def c1wRoute : Route Nat Unit :=
  .mk ("/foo") none (some fun _ => .sync (some 5))

/-- Compiled pattern of the C1 witness route. -/
def c1wPat : URLPattern :=
  { protocol := ("https"), hostname := ("example.com"), port := (""),
    pathname := [.lit '/', .lit 'f', .lit 'o', .lit 'o'] }

/-- Match result of the C1 witness route against `/foo`. -/
def c1wRes : PatternResult :=
  { pathname := { input := ("/foo"), groups := [] },
    search := { input := (""), groups := [(("0"), some (""))] },
    hash := { input := (""), groups := [(("0"), some (""))] } }

/-- Fixture for the C2 witness: one route `/foo`, no handler. -/
def c2wRouter : Router Nat Unit :=
  { routes := .cons (.mk ("/foo") none none) .nil,
    baseURL := ("https://example.com"), errorHandler := none }

/-- Fixture for the C3 witness: nothing matches `/bar`, handler returns 9. -/
def c3wRouter : Router Nat Unit :=
  { routes := .cons (.mk ("/foo") none none) .nil,
    baseURL := ("https://example.com"),
    errorHandler := some fun _ _ _ => .sync (some 9) }

/-- Fixture for C4: the route `/users/:id`, whose action reports the
`params` object it received. -/
def c4Router : Router RouteParams Unit :=
  { routes := .cons (.mk ("/users/:id") none (some fun ctx => .sync (some ctx.params))) .nil,
    baseURL := ("https://example.com"), errorHandler := none }

/-- Fixture for the C5 witness: first of two siblings whose patterns both
match `/x`; it returns 1 while its later twin would return 2. -/
def c5wFirst : Route Nat Unit :=
  .mk ("/x") none (some fun _ => .sync (some 1))

/-- Fixture for the C5 witness: the later sibling, same pattern, value 2. -/
def c5wSecond : Route Nat Unit :=
  .mk ("x") none (some fun _ => .sync (some 2))

/-- Compiled pattern of both C5 witness siblings. -/
def c5wPat : URLPattern :=
  { protocol := ("https"), hostname := ("example.com"), port := (""),
    pathname := [.lit '/', .lit 'x'] }

/-- Match result of the C5 witness pattern against `/x`. -/
def c5wRes : PatternResult :=
  { pathname := { input := ("/x"), groups := [] },
    search := { input := (""), groups := [(("0"), some (""))] },
    hash := { input := (""), groups := [(("0"), some (""))] } }

/-- Fixture for C6: child `sub` under parent `/base`. -/
def c6Routes : RouteList Unit Unit :=
  .cons (.mk ("/base") (some (.cons (.mk ("sub") none none) .nil)) none) .nil

/-- The pattern `#patternize` actually compiles for the C6 child node. -/
def c6ChildPat : URLPattern :=
  { protocol := ("https"), hostname := ("example.com"), port := (""),
    pathname := [.lit '/', .lit 's', .lit 'u', .lit 'b'] }

/-- Fixture for C6: the router over `c6Routes`. -/
def c6Router : Router Unit Unit :=
  { routes := c6Routes, baseURL := ("https://example.com"), errorHandler := none }

/-- Fixture for the C7 counterexample: the matching route's action throws
`new RouterError(500, 'boom')`; an error handler is configured and returns
7. -/
def c7Router : Router Nat Unit :=
  { routes := .cons (.mk ("/") none (some fun _ => .throws (.routerError 500 ("boom")))) .nil,
    baseURL := ("https://example.com"),
    errorHandler := some fun _ _ _ => .sync (some 7) }

/-- Fixture for the C7 witness: the action throws a non-`RouterError`
value; a handler is configured but must not see it. -/
def c7wRouter : Router Nat Unit :=
  { routes := .cons (.mk ("/") none (some fun _ => .throws (.other ("boom")))) .nil,
    baseURL := ("https://example.com"),
    errorHandler := some fun _ _ _ => .sync (some 7) }

/-- Fixture for the C8 witness: the matched route `/plain` with neither
action nor children, preceded by a non-matching sibling `/other`. -/
def c8wRouter : Router Nat Unit :=
  { routes := .cons (.mk ("/other") none none) (.cons (.mk ("/plain") none none) .nil),
    baseURL := ("https://example.com"), errorHandler := none }

/-- Compiled pattern of the C8 witness route `/plain`. -/
def c8wPat : URLPattern :=
  { protocol := ("https"), hostname := ("example.com"), port := (""),
    pathname := [.lit '/', .lit 'p', .lit 'l', .lit 'a', .lit 'i', .lit 'n'] }

/-- Match result of the C8 witness route against `/plain`. -/
def c8wRes : PatternResult :=
  { pathname := { input := ("/plain"), groups := [] },
    search := { input := (""), groups := [(("0"), some (""))] },
    hash := { input := (""), groups := [(("0"), some (""))] } }

/-- Fixture for the C9 witness: route `/foo` with `children: []` and no
action. -/
def c9wRoute : Route Nat Unit :=
  .mk ("/foo") (some .nil) none

/-- Compiled pattern of the C9 witness route. -/
def c9wPat : URLPattern :=
  { protocol := ("https"), hostname := ("example.com"), port := (""),
    pathname := [.lit '/', .lit 'f', .lit 'o', .lit 'o'] }

/-- Match result of the C9 witness route against `/foo`. -/
def c9wRes : PatternResult :=
  { pathname := { input := ("/foo"), groups := [] },
    search := { input := (""), groups := [(("0"), some (""))] },
    hash := { input := (""), groups := [(("0"), some (""))] } }

/-- Fixture for the C10 witness: parent `/a` with one child `b`. -/
def c10wRoutes : RouteList Nat Unit :=
  .cons (.mk ("/a") (some (.cons (.mk ("b") none none) .nil)) none) .nil

/-! ## Concrete fixtures shared by the claim witnesses -/

/-! ## General lemmas about the resolver -/

/-- A sibling whose pattern does not match is skipped: the loop moves on to
the remaining siblings (with the next index). -/
theorem resolveRoutes_cons_nomatch {path : URLRec} {parents : List String} {pp : List Nat}
    {i : Nat} {r : Route R C} {rest : RouteList R C} {parent : Option (List Nat)}
    {c : Option C} {pat : URLPattern}
    (hc : compilePattern (stripJoiners r.path) (joinSlash parents) = some pat)
    (he : pat.exec path = none) :
    resolveRoutes path parents pp i (.cons r rest) parent c =
      resolveRoutes path parents pp (i + 1) rest parent c := by
  simp [resolveRoutes, hc, he]

/-- The first matching sibling takes over: the loop result is
`resolveMatched` on that node, and the remaining siblings do not occur. -/
theorem resolveRoutes_cons_match {path : URLRec} {parents : List String} {pp : List Nat}
    {i : Nat} {r : Route R C} {rest : RouteList R C} {parent : Option (List Nat)}
    {c : Option C} {pat : URLPattern} {res : PatternResult}
    (hc : compilePattern (stripJoiners r.path) (joinSlash parents) = some pat)
    (he : pat.exec path = some res) :
    resolveRoutes path parents pp i (.cons r rest) parent c =
      resolveMatched path parents pp i r parent c res := by
  simp [resolveRoutes, hc, he]

/-- `resolveMatched` in terms of the node's properties and the named
`childNext` continuation. -/
theorem resolveMatched_eq (path : URLRec) (parents : List String) (pp : List Nat) (i : Nat)
    (r : Route R C) (parent : Option (List Nat)) (c : Option C) (res : PatternResult) :
    resolveMatched path parents pp i r parent c res =
      matchedStep path res.search.groups (pp ++ [i]) parent c r.action
        (childNext path parents (pp ++ [i]) r c) := by
  cases r with
  | mk p cs a =>
    cases cs with
    | none =>
      have h : childNext path parents (pp ++ [i]) (Route.mk p none a) c =
          fun _ => Except.ok none := rfl
      rw [h, resolveMatched, Route.action]
    | some csl =>
      have h : childNext path parents (pp ++ [i]) (Route.mk p (some csl) a) c =
          fun _ => resolveRoutes path (parents ++ [stripJoiners p]) (pp ++ [i]) 0 csl
            (some (pp ++ [i])) c := rfl
      rw [h, resolveMatched, Route.action]

/-- A run of non-matching siblings in front of the scanned list is stepped
over, advancing the sibling index by its length. -/
theorem resolveRoutes_skip {path : URLRec} {parents : List String} :
    ∀ (pre : RouteList R C) (pp : List Nat) (i : Nat) (rest : RouteList R C)
      (parent : Option (List Nat)) (c : Option C), NoneMatch path parents pre →
      resolveRoutes path parents pp i (pre.append rest) parent c =
        resolveRoutes path parents pp (i + pre.length) rest parent c
  | .nil, pp, i, rest, parent, c, _ => by
    simp [RouteList.append, RouteList.length]
  | .cons r pre', pp, i, rest, parent, c, h => by
    obtain ⟨⟨pat, hc, he⟩, h'⟩ := h
    rw [show RouteList.append (.cons r pre') rest = .cons r (pre'.append rest) from rfl,
      resolveRoutes_cons_nomatch hc he,
      resolveRoutes_skip pre' pp (i + 1) rest parent c h',
      show i + 1 + pre'.length = i + RouteList.length (.cons r pre') from by
        simp [RouteList.length]; omega]

/-- When construction compiled a pattern for every node and no node of the
tree matches the candidate URL at any depth, the loop falls through every
sibling and throws the 404 `RouterError` naming the path. -/
theorem resolveRoutes_404 {u : URLRec} :
    ∀ (routes : RouteList R C) (parents : List String) (pp : List Nat) (i : Nat)
      (parent : Option (List Nat)) (c : Option C),
      anyMatchList routes parents u = false →
      ((patternizeList routes parents pp i).all fun e => e.2.isSome) = true →
      resolveRoutes u parents pp i routes parent c =
        .error (.routerError 404 (("Page ") ++ serializeURL u ++ (" is not found")))
  | .nil, parents, pp, i, parent, c, _, _ => by
    simp [resolveRoutes]
  | .cons (.mk p cs a) rest, parents, pp, i, parent, c, hnm, hcomp => by
    rw [anyMatchList] at hnm
    rw [patternizeList] at hcomp
    simp only [List.all_append, Bool.and_eq_true] at hcomp
    obtain ⟨hcompNode, hcompRest⟩ := hcomp
    simp only [Bool.or_eq_false_iff] at hnm
    obtain ⟨hnmNode, hnmRest⟩ := hnm
    have hpm : patMatchesB p parents u = false := by
      cases cs with
      | none => rw [anyMatchNode] at hnmNode; exact hnmNode
      | some csl =>
        rw [anyMatchNode] at hnmNode
        exact (Bool.or_eq_false_iff.mp hnmNode).1
    have hcompHead :
        (compilePattern (stripJoiners p) (joinSlash parents)).isSome = true := by
      cases cs with
      | none =>
        rw [patternizeNode] at hcompNode
        simpa using hcompNode
      | some csl =>
        rw [patternizeNode] at hcompNode
        simp only [List.all_cons, Bool.and_eq_true] at hcompNode
        exact hcompNode.1
    obtain ⟨pat, hpat⟩ := Option.isSome_iff_exists.mp hcompHead
    have hexec : pat.exec u = none := by
      rw [patMatchesB, hpat] at hpm
      simpa [Option.isSome_iff_exists] using hpm
    have hpat' : compilePattern (stripJoiners (Route.path (Route.mk p cs a)))
        (joinSlash parents) = some pat := hpat
    rw [resolveRoutes_cons_nomatch hpat' hexec]
    exact resolveRoutes_404 rest parents pp (i + 1) parent c hnmRest hcompRest

/-- Key membership in an association list makes `lookup` succeed. -/
theorem lookup_isSome_of_mem {α β : Type} [BEq α] [LawfulBEq α] :
    ∀ {l : List (α × β)} {k : α} {v : β}, (k, v) ∈ l → (l.lookup k).isSome = true
  | (a, b) :: es, k, v, h => by
    rcases List.mem_cons.mp h with h' | h'
    · obtain ⟨rfl, rfl⟩ := Prod.mk.injEq .. ▸ h'
      simp [List.lookup]
    · by_cases hk : k == a
      · simp [List.lookup, hk]
      · simp only [List.lookup, hk]
        exact lookup_isSome_of_mem h'

/-- A `Reachable` position exists only in a non-empty sibling list. -/
theorem Reachable_cons {routes : RouteList R C} {pos : List Nat}
    (h : Reachable routes pos) : ∃ r rest, routes = RouteList.cons r rest := by
  cases h with
  | head r rest => exact ⟨r, rest, rfl⟩
  | tail r rest j q _ => exact ⟨r, rest, rfl⟩
  | down p csl a rest q _ => exact ⟨.mk p (some csl) a, rest, rfl⟩

/-- Every reachable node position has an entry in the pattern table built
by `#patternize`, for any key prefix and sibling-index offset. -/
theorem patternize_mem {routes : RouteList R C} {pos : List Nat}
    (h : Reachable routes pos) :
    ∀ (parents : List String) (pp : List Nat) (i : Nat),
      ∃ v, (pp ++ [pos.headD 0 + i] ++ pos.tail, v) ∈ patternizeList routes parents pp i := by
  induction h with
  | head r rest =>
    intro parents pp i
    refine ⟨compilePattern (stripJoiners r.path) (joinSlash parents), ?_⟩
    cases r with
    | mk p cs a =>
      cases cs with
      | none => rw [patternizeList, patternizeNode]; simp [Route.path]
      | some csl => rw [patternizeList, patternizeNode]; simp [Route.path]
  | tail r rest j q hrec ih =>
    intro parents pp i
    obtain ⟨v, hv⟩ := ih parents pp (i + 1)
    refine ⟨v, ?_⟩
    rw [patternizeList]
    refine List.mem_append_right _ ?_
    have harith : j + 1 + i = j + (i + 1) := by omega
    simpa [harith] using hv
  | down p csl a rest q hrec ih =>
    intro parents pp i
    obtain ⟨rc, restc, hcons⟩ := Reachable_cons hrec
    obtain ⟨v, hv⟩ := ih (parents ++ [stripJoiners p]) (pp ++ [i]) 0
    refine ⟨v, ?_⟩
    rw [patternizeList]
    refine List.mem_append_left _ ?_
    rw [patternizeNode]
    refine List.mem_cons_of_mem _ ?_
    have hlen : csl.length ≠ 0 := by
      rw [hcons]
      simp [RouteList.length]
    simp only [hlen, if_false]
    cases q with
    | nil => cases hrec
    | cons j' q' => simpa using hv

/-! ## Claim C1 -/

/-- Counterexample to claim C1 as stated.  The first matching sibling
(`/base`) defines an action; that action returns `undefined` and never
invokes `next()`, so by the claim the resolution result should be
`undefined` and the children should never be tested.  Instead the `??` in
`route.action?.(…) ?? next()` sees the synchronous nullish return value and
the resolver itself delegates to the children: the child's action runs and
its value `2` is the result. -/
theorem c1_counterexample :
    c1Router.resolve (exURL ("/base")) none = .ok (some 2) := rfl

/-- Claim C1 (amended): when the first matching sibling defines an action
whose immediate result is NOT a synchronous nullish value — a promise
(whatever it settles to) or a synchronous non-null value — `resolve`'s
result is that action's return value (the settled value of its promise,
with rejections propagating), and the matched node's children are never
tested unless the action itself invokes `next()`: the conclusion is the
action's own output, over any sibling tail and any children.  When the
action's immediate result is a synchronous nullish value, the resolver
falls back to `next()` itself (see `c1_counterexample`). -/
theorem c1_action_result (path : URLRec) (parents : List String) (pp : List Nat) (i : Nat)
    (r : Route R C) (rest : RouteList R C) (parent : Option (List Nat)) (c : Option C)
    (pat : URLPattern) (res : PatternResult) (a : RouteContext R C → ActionOut R)
    (out : ActionOut R)
    (hc : compilePattern (stripJoiners r.path) (joinSlash parents) = some pat)
    (he : pat.exec path = some res)
    (ha : r.action = some a)
    (hout : a { context := c, next := childNext path parents (pp ++ [i]) r c,
                params := res.search.groups, parent := parent, path := path,
                route := pp ++ [i] } = out)
    (hnn : out ≠ ActionOut.sync none) :
    resolveRoutes path parents pp i (.cons r rest) parent c = settleOut out := by
  rw [resolveRoutes_cons_match hc he, resolveMatched_eq, ha]
  simp only [matchedStep]
  rw [hout]
  cases out with
  | sync v =>
    cases v with
    | none => exact absurd rfl hnn
    | some w => rfl
  | promise v => rfl
  | throws e => rfl

/-- Witness for `c1_action_result` at a concrete input. -/
theorem c1_action_result_witness :
    compilePattern (stripJoiners c1wRoute.path) (joinSlash [("https://example.com")]) =
        some c1wPat ∧
    c1wPat.exec (exURL ("/foo")) = some c1wRes ∧
    c1wRoute.action = some (fun _ => .sync (some 5)) ∧
    (ActionOut.sync (some 5) : ActionOut Nat) ≠ ActionOut.sync none ∧
    resolveRoutes (exURL ("/foo")) [("https://example.com")] [] 0 (.cons c1wRoute .nil)
        none none = .ok (some 5) :=
  ⟨rfl, rfl, rfl, by simp, by
    have h := c1_action_result (exURL ("/foo")) [("https://example.com")] [] 0 c1wRoute .nil
      none none c1wPat c1wRes (fun _ => .sync (some 5)) (.sync (some 5))
      rfl rfl rfl rfl (by simp)
    exact h.trans rfl⟩

/-! ## Claim C2 -/

/-- Claim C2: for every constructed router with no error handler and every
candidate URL that matches no node of the route tree at any depth,
`resolve` fails with the structured `RouterError` of status 404 whose
message names the serialized path; nothing swallows it on the way out
(`#resolve` raises it at the level where no sibling matched — here the root
level, since not even a root sibling matches — and the public `resolve`
re-throws it when no handler is configured). -/
theorem c2_unmatched_404 (ρ : Router R C) (u : URLRec) (c : Option C)
    (hh : ρ.errorHandler = none)
    (hcomp : allCompile ρ.routes [stripJoiners ρ.baseURL] = true)
    (hnm : anyMatchList ρ.routes [stripJoiners ρ.baseURL] u = false) :
    ρ.resolve u c =
      .error (.routerError 404 (("Page ") ++ serializeURL u ++ (" is not found"))) := by
  rw [allCompile, patternize] at hcomp
  have h404 := resolveRoutes_404 ρ.routes [stripJoiners ρ.baseURL] [] 0 none c hnm hcomp
  simp only [Router.resolve, h404, hh]

/-- Witness for `c2_unmatched_404` at a concrete input (`/bar` matches
nothing). -/
theorem c2_unmatched_404_witness :
    c2wRouter.errorHandler = none ∧
    allCompile c2wRouter.routes [stripJoiners c2wRouter.baseURL] = true ∧
    anyMatchList c2wRouter.routes [stripJoiners c2wRouter.baseURL] (exURL ("/bar")) = false ∧
    c2wRouter.resolve (exURL ("/bar")) none =
      .error (.routerError 404 (("Page https://example.com/bar is not found"))) :=
  ⟨rfl, rfl, rfl, (c2_unmatched_404 c2wRouter (exURL ("/bar")) none rfl rfl rfl).trans rfl⟩

/-! ## Claim C3 -/

/-- Claim C3: when an `errorHandler` is configured and a resolution's
traversal ends in a structured `RouterError` (in particular the 404
not-found), the public `resolve` — and only it: `#resolve` contains no
handler call, so the failure always unwinds to the outermost call first —
invokes the handler on exactly the arguments `(path, error, context)` and
the handler's return value (settled if a promise) becomes the result of
`resolve`; no failure is surfaced to the caller. -/
theorem c3_error_handler (ρ : Router R C) (u : URLRec) (c : Option C)
    (h : URLRec → RouterError → Option C → ActionOut R) (s : Nat) (m : String)
    (hh : ρ.errorHandler = some h)
    (hres : resolveRoutes u [stripJoiners ρ.baseURL] [] 0 ρ.routes none c =
      .error (.routerError s m)) :
    ρ.resolve u c = settleOut (h u { status := s, message := m } c) := by
  simp only [Router.resolve, hres, hh]

/-- Witness for `c3_error_handler` at a concrete input. -/
theorem c3_error_handler_witness :
    c3wRouter.errorHandler = some (fun _ _ _ => .sync (some 9)) ∧
    resolveRoutes (exURL ("/bar")) [stripJoiners c3wRouter.baseURL] [] 0 c3wRouter.routes
        none none =
      .error (.routerError 404 (("Page https://example.com/bar is not found"))) ∧
    c3wRouter.resolve (exURL ("/bar")) none = .ok (some 9) :=
  ⟨rfl, rfl,
    (c3_error_handler c3wRouter (exURL ("/bar")) none (fun _ _ _ => .sync (some 9)) 404
      (("Page https://example.com/bar is not found")) rfl rfl).trans rfl⟩

/-! ## Claim C4 -/

/-- Claim C4 is right about the matcher and wrong about the code: matching
the compiled pattern of `/users/:id` against `/users/42` captures pathname
groups `{id: "42"}` (first conjunct — the full `exec` result, whose
`search`/`hash` wildcard components capture the empty input as group
`"0"`), but `#resolve` passes `result.search.groups` — not
`result.pathname.groups` — as `params`, so the action observes
`{"0": ""}` instead of `{id: "42"}` (second conjunct). -/
theorem c4_params_are_search_groups :
    (compilePattern (stripJoiners ("/users/:id")) (joinSlash [("https://example.com")])).bind
        (fun pat => pat.exec (exURL ("/users/42"))) =
      some { pathname := { input := ("/users/42"), groups := [(("id"), some ("42"))] },
             search := { input := (""), groups := [(("0"), some (""))] },
             hash := { input := (""), groups := [(("0"), some (""))] } } ∧
    c4Router.resolve (exURL ("/users/42")) none = .ok (some [(("0"), some (""))]) :=
  ⟨rfl, rfl⟩

/-! ## Claim C5 -/

/-- Claim C5: first-match-wins.  If the first sibling's pattern matches,
the loop result is determined entirely by that sibling — its action (or
`next` over its children via `childNext`) — and the conclusion does not
mention the remaining siblings `rest` at all: their matchers and actions
are never evaluated, whether or not they would also match. -/
theorem c5_first_match_wins (path : URLRec) (parents : List String) (pp : List Nat) (i : Nat)
    (r : Route R C) (rest : RouteList R C) (parent : Option (List Nat)) (c : Option C)
    (pat : URLPattern) (res : PatternResult)
    (hc : compilePattern (stripJoiners r.path) (joinSlash parents) = some pat)
    (he : pat.exec path = some res) :
    resolveRoutes path parents pp i (.cons r rest) parent c =
      matchedStep path res.search.groups (pp ++ [i]) parent c r.action
        (childNext path parents (pp ++ [i]) r c) := by
  rw [resolveRoutes_cons_match hc he, resolveMatched_eq]

/-- Witness for `c5_first_match_wins`: both siblings match `/x`; the result
is the earlier sibling's action value. -/
theorem c5_first_match_wins_witness :
    compilePattern (stripJoiners c5wFirst.path) (joinSlash [("https://example.com")]) =
        some c5wPat ∧
    compilePattern (stripJoiners c5wSecond.path) (joinSlash [("https://example.com")]) =
        some c5wPat ∧
    c5wPat.exec (exURL ("/x")) = some c5wRes ∧
    resolveRoutes (exURL ("/x")) [("https://example.com")] [] 0
        (.cons c5wFirst (.cons c5wSecond .nil)) none none = .ok (some 1) :=
  ⟨rfl, rfl, rfl,
    (c5_first_match_wins (exURL ("/x")) [("https://example.com")] [] 0 c5wFirst
      (.cons c5wSecond .nil) none none c5wPat c5wRes rfl rfl).trans rfl⟩

/-! ## Claim C6 -/

/-- Claim C6 is right about the intended composition and wrong about the
code: the child's pattern is compiled with base
`'https://example.com' + '/' + 'base'`, and URLPattern resolves the
relative pathname pattern `sub` against that base's *directory* — the
pathname up to and including its last `/`, here just `/` — so the stored
child pattern is `/sub`, not `/base/sub` (first conjunct: the table entry
built at construction).  Consequently the child pattern matches bare
`/sub` (second conjunct) and does not match `/base/sub` (third conjunct),
and resolving `/base/sub` against the tree is a 404 (fourth conjunct) —
the opposite of the claim. -/
theorem c6_child_pattern_drops_base_segment :
    (patternize c6Routes [("https://example.com")]).lookup [0, 0] =
      some (some c6ChildPat) ∧
    (c6ChildPat.exec (exURL ("/sub"))).isSome = true ∧
    c6ChildPat.exec (exURL ("/base/sub")) = none ∧
    c6Router.resolve (exURL ("/base/sub")) none =
      .error (.routerError 404 (("Page https://example.com/base/sub is not found"))) :=
  ⟨rfl, rfl, rfl, rfl⟩

/-! ## Claim C7 -/

/-- Counterexample to claim C7 as stated: the failure raised by the route
action (first conjunct: the traversal rejects with the action's
`RouterError(500)`) does NOT propagate to the caller unchanged — the
`catch` in `resolve` tests only `e instanceof RouterError`, which cannot
tell the router's own failures from `RouterError`s thrown by action code,
so the configured handler intercepts it and its value 7 becomes the result
(second conjunct). -/
theorem c7_counterexample :
    resolveRoutes (exURL ("/")) [stripJoiners c7Router.baseURL] [] 0 c7Router.routes
        none none = .error (.routerError 500 ("boom")) ∧
    c7Router.resolve (exURL ("/")) none = .ok (some 7) :=
  ⟨rfl, rfl⟩

/-- Claim C7 (amended): every failure raised by route action code (or by
code driving `next()`) that is NOT an instance of `RouterError` propagates
to the caller of `resolve` unchanged, even when an `errorHandler` is
configured; a `RouterError` instance, whatever code threw it, is treated
like the router's own structured failures and handed to the handler
(see `c7_counterexample` and `c3_error_handler`). -/
theorem c7_non_router_failures_propagate (ρ : Router R C) (u : URLRec) (c : Option C)
    (m : String)
    (hres : resolveRoutes u [stripJoiners ρ.baseURL] [] 0 ρ.routes none c =
      .error (.other m)) :
    ρ.resolve u c = .error (.other m) := by
  simp only [Router.resolve, hres]

/-- Witness for `c7_non_router_failures_propagate` at a concrete input. -/
theorem c7_non_router_failures_propagate_witness :
    resolveRoutes (exURL ("/")) [stripJoiners c7wRouter.baseURL] [] 0 c7wRouter.routes
        none none = .error (.other ("boom")) ∧
    c7wRouter.resolve (exURL ("/")) none = .error (.other ("boom")) :=
  ⟨rfl, c7_non_router_failures_propagate c7wRouter (exURL ("/")) none ("boom") rfl⟩

/-! ## Claim C8 -/

/-- Claim C8: when the first matching sibling (after a run `pre` of
non-matching siblings) has neither an action nor children, resolution
yields `undefined` — `Except.ok none`, a non-error outcome distinct from
the 404 — both for the traversal and for the public `resolve`. -/
theorem c8_no_action_no_children_undefined (path : URLRec) (parents : List String)
    (pp : List Nat) (i : Nat) (pre : RouteList R C) (r : Route R C) (rest : RouteList R C)
    (parent : Option (List Nat)) (c : Option C) (pat : URLPattern) (res : PatternResult)
    (ρ : Router R C)
    (hpre : NoneMatch path parents pre)
    (hc : compilePattern (stripJoiners r.path) (joinSlash parents) = some pat)
    (he : pat.exec path = some res)
    (ha : r.action = none) (hch : r.children = none)
    (hρr : ρ.routes = pre.append (.cons r rest))
    (hρb : [stripJoiners ρ.baseURL] = parents) :
    resolveRoutes path parents pp i (pre.append (.cons r rest)) parent c = .ok none ∧
    ρ.resolve path c = .ok none := by
  have h1 : ∀ (pp' : List Nat) (i' : Nat) (parent' : Option (List Nat)),
      resolveRoutes path parents pp' i' (pre.append (.cons r rest)) parent' c =
        .ok none := by
    intro pp' i' parent'
    rw [resolveRoutes_skip pre pp' i' _ parent' c hpre, resolveRoutes_cons_match hc he,
      resolveMatched_eq, ha]
    simp only [matchedStep, childNext, hch]
  refine ⟨h1 pp i parent, ?_⟩
  rw [Router.resolve, hρb, hρr]
  rw [h1 [] 0 none]

/-- Witness for `c8_no_action_no_children_undefined` at a concrete input. -/
theorem c8_no_action_no_children_undefined_witness :
    NoneMatch (exURL ("/plain")) [("https://example.com")]
        (.cons (.mk ("/other") none none) (.nil (R := Nat) (C := Unit))) ∧
    c8wPat.exec (exURL ("/plain")) = some c8wRes ∧
    c8wRouter.resolve (exURL ("/plain")) none = .ok none :=
  ⟨⟨⟨{ protocol := ("https"), hostname := ("example.com"), port := (""),
        pathname := [.lit '/', .lit 'o', .lit 't', .lit 'h', .lit 'e', .lit 'r'] },
      rfl, rfl⟩, trivial⟩, rfl,
    (c8_no_action_no_children_undefined (exURL ("/plain")) [("https://example.com")] [] 0
      (.cons (.mk ("/other") none none) .nil) (.mk ("/plain") none none) .nil none none
      c8wPat c8wRes c8wRouter
      ⟨⟨{ protocol := ("https"), hostname := ("example.com"), port := (""),
          pathname := [.lit '/', .lit 'o', .lit 't', .lit 'h', .lit 'e', .lit 'r'] },
        rfl, rfl⟩, trivial⟩
      rfl rfl rfl rfl rfl rfl).2⟩

/-! ## Claim C9 -/

/-- Claim C9: for the first matching sibling without an action, the
outcome of `next()` hinges on the exact shape of `children`: an EMPTY
ARRAY is truthy, so `next()` re-enters the resolver on the empty sibling
list, whose loop body never runs and which therefore throws the 404
`RouterError`; only an absent/`null` `children` makes `next()` yield
`undefined`. -/
theorem c9_empty_children_404 (path : URLRec) (parents : List String)
    (pp : List Nat) (i : Nat) (pre : RouteList R C) (r : Route R C) (rest : RouteList R C)
    (parent : Option (List Nat)) (c : Option C) (pat : URLPattern) (res : PatternResult)
    (hpre : NoneMatch path parents pre)
    (hc : compilePattern (stripJoiners r.path) (joinSlash parents) = some pat)
    (he : pat.exec path = some res)
    (ha : r.action = none) :
    (r.children = some .nil →
      resolveRoutes path parents pp i (pre.append (.cons r rest)) parent c =
        .error (.routerError 404 (("Page ") ++ serializeURL path ++ (" is not found")))) ∧
    (r.children = none →
      resolveRoutes path parents pp i (pre.append (.cons r rest)) parent c = .ok none) := by
  constructor
  · intro hch
    rw [resolveRoutes_skip pre pp i _ parent c hpre, resolveRoutes_cons_match hc he,
      resolveMatched_eq, ha]
    simp only [matchedStep, childNext, hch]
    rw [resolveRoutes]
  · intro hch
    rw [resolveRoutes_skip pre pp i _ parent c hpre, resolveRoutes_cons_match hc he,
      resolveMatched_eq, ha]
    simp only [matchedStep, childNext, hch]

/-- Witness for `c9_empty_children_404` at a concrete input: the matched
node's `children` is the empty array, and resolution is the 404 instead of
`undefined`. -/
theorem c9_empty_children_404_witness :
    c9wRoute.children = some .nil ∧
    c9wRoute.action = none ∧
    c9wPat.exec (exURL ("/foo")) = some c9wRes ∧
    resolveRoutes (exURL ("/foo")) [("https://example.com")] [] 0
        (RouteList.append .nil (.cons c9wRoute .nil)) none none =
      .error (.routerError 404 (("Page https://example.com/foo is not found"))) :=
  ⟨rfl, rfl, rfl,
    ((c9_empty_children_404 (exURL ("/foo")) [("https://example.com")] [] 0 .nil c9wRoute
      .nil none none c9wPat c9wRes trivial rfl rfl rfl).1 rfl).trans (by rfl)⟩

/-! ## Claim C10 -/

/-- Claim C10: every route node the resolution loop can encounter — every
node of the root sibling list and, recursively, of the children of any
such node (`Reachable`) — received a compiled pattern in the table during
construction, so the unchecked `this.#patterns.get(route)!` lookup never
yields `undefined`. -/
theorem c10_pattern_table_total (routes : RouteList R C) (parents : List String)
    (pos : List Nat) (h : Reachable routes pos) :
    ((patternize routes parents).lookup pos).isSome = true := by
  obtain ⟨v, hv⟩ := patternize_mem h parents [] 0
  have hpos : [] ++ [pos.headD 0 + 0] ++ pos.tail = pos := by
    cases h with
    | head r rest => rfl
    | tail r rest j q _ => simp
    | down p csl a rest q _ => simp
  rw [hpos] at hv
  exact lookup_isSome_of_mem hv

/-- Witness for `c10_pattern_table_total` at a concrete input: the child
position `[0, 0]` is reachable and has a table entry. -/
theorem c10_pattern_table_total_witness :
    Reachable c10wRoutes [0, 0] ∧
    ((patternize c10wRoutes [("https://example.com")]).lookup [0, 0]).isSome = true :=
  ⟨Reachable.down ("/a") (.cons (.mk ("b") none none) .nil) none .nil [0]
      (Reachable.head _ _),
    c10_pattern_table_total c10wRoutes [("https://example.com")] [0, 0]
      (Reachable.down ("/a") (.cons (.mk ("b") none none) .nil) none .nil [0]
        (Reachable.head _ _))⟩

end HillaRouter
